import Mathlib

/-!
Verification of the ColorEmotions service core (src/main.py) against its
specification.  The Python endpoint analyze_text_and_get_color is shallowly
embedded: the JSON payload universe is an inductive type, the retry loop is a
fuel-indexed recursion over an oracle of attempt outcomes, the parsing block
(lines 95-112) is a fold that tracks which Python exceptions are raised and
whether the except clause catches them, and the CDF + HSL stages are explicit
rational arithmetic.
-/

/-- The universe of JSON values a response body can decode to
(booleans omitted; they play no role in any claim). -/
inductive Json where
  | null
  | num (q : ℚ)
  | str (s : String)
  | list (xs : List Json)
  | obj (kvs : List (String × Json))

/-- Python dict lookup d.get(k) on a JSON object: last binding wins,
mirroring json.loads duplicate-key semantics; absent key gives Python None,
modelled as Option.none. -/
def jget (kvs : List (String × Json)) (k : String) : Option Json :=
  kvs.foldl (fun acc p => if p.1 = k then some p.2 else acc) none

/-- Python model_output[0] (line 98).  Returns some of the element when
subscripting succeeds; none when it raises one of the caught exceptions:
IndexError (empty list or empty string), KeyError (dict without key 0),
TypeError (non-subscriptable null or number).  Subscripting a nonempty
string yields its first character as a one-character string. -/
def index0 : Json → Option Json
  | .list (x :: _) => some x
  | .str s =>
    match s.data with
    | [] => none
    | c :: _ => some (.str (String.mk [c]))
  | _ => none

/-- Python isinstance(x, list). -/
def Json.isList : Json → Bool
  | .list _ => true
  | _ => false

/-- Exceptions the parsing block can raise: caught covers IndexError,
TypeError and KeyError (handled by the except clause at line 111), uncaught
is AttributeError from calling .get on a non-dict item, which escapes. -/
inductive PyExc where
  | caught
  | uncaught

/-- The scores dict built at lines 97-105.  Each field is none when the
dimension key is absent and some sv when present, where sv is the stored
Python value: item.get("score"), itself none when the record lacks a
"score" field. -/
structure ScoresDict where
  v : Option (Option Json)
  a : Option (Option Json)
  d : Option (Option Json)

def ScoresDict.empty : ScoresDict := ⟨none, none, none⟩

/-- One iteration of the for loop at lines 100-105.  A non-dict item raises
AttributeError at item.get (uncaught).  A label value that is an unhashable
container raises TypeError inside the dict-membership test (caught).
Recognized generic labels store item.get("score") under their dimension;
any other label is skipped. -/
def processItem (sc : ScoresDict) (item : Json) : Except PyExc ScoresDict :=
  match item with
  | .obj kvs =>
    let scv := jget kvs "score"
    match jget kvs "label" with
    | some (.str s) =>
      if s = "LABEL_0" then .ok { sc with v := some scv }
      else if s = "LABEL_1" then .ok { sc with a := some scv }
      else if s = "LABEL_2" then .ok { sc with d := some scv }
      else .ok sc
    | some (.list _) => .error .caught
    | some (.obj _) => .error .caught
    | _ => .ok sc
  | _ => .error .uncaught

/-- Python iteration over output_list: a list yields its elements, a string
its characters (as one-character strings), a dict its keys; anything else
raises TypeError (caught). -/
def pyIterate : Json → Except PyExc (List Json)
  | .list xs => .ok xs
  | .str s => .ok (s.data.map (fun c => Json.str (String.mk [c])))
  | .obj kvs => .ok (kvs.map (fun p => Json.str p.1))
  | _ => .error .caught

def foldItems (items : List Json) : Except PyExc ScoresDict :=
  items.foldlM processItem ScoresDict.empty

/-- Outcome of the parsing block, lines 95-112.  ok carries the three
Python values valence_score, arousal_score, dominance_score (none standing
for Python None); malformed is the HTTPException raised by the except
clause, carrying the offending model_output in its detail; uncaught is an
AttributeError escaping the handler. -/
inductive ParseOutcome where
  | ok (vS aS dS : Option Json)
  | malformed (detail : Json)
  | uncaught

/-- scores.get(dim, 3.0) at lines 107-109: the stored value when the key is
present (even when that value is Python None), the neutral default 3.0
otherwise. -/
def dimOut : Option (Option Json) → Option Json
  | some stored => stored
  | none => some (.num 3)

/-- output_list selection at line 98: flatten one level of nesting when the
first element is itself a list. -/
def outputListOf (mo : Json) : Option Json :=
  (index0 mo).map (fun e => if e.isList then e else mo)

/-- The parsing block, lines 95-112, as a function of model_output. -/
def parse (mo : Json) : ParseOutcome :=
  match outputListOf mo with
  | none => .malformed mo
  | some outputList =>
    match pyIterate outputList with
    | .error _ => .malformed mo
    | .ok items =>
      match foldItems items with
      | .error .caught => .malformed mo
      | .error .uncaught => .uncaught
      | .ok sc => .ok (dimOut sc.v) (dimOut sc.a) (dimOut sc.d)

/-!  The retry loop, lines 73-92.  Each outbound call either raises a
transport-level RequestException or returns a response with a status code
and a JSON body.  An oracle function gives the outcome of the i-th call. -/

inductive Attempt where
  | transportError
  | response (status : ℕ) (body : Json)

/-- Whether the i-th loop iteration lands in the except clause: a transport
failure, the explicit raise on status 503 (line 81), or the HTTPError raised
by raise_for_status on a 4xx/5xx status (line 82) — HTTPError is a subclass
of RequestException, so it is caught by the same handler as 503. -/
def attemptFails : Attempt → Bool
  | .transportError => true
  | .response st _ => st == 503 || (decide (400 ≤ st) && decide (st < 600))

/-- response.json() of a successful attempt. -/
def Attempt.respBody : Attempt → Json
  | .transportError => .null
  | .response _ b => b

def maxRetries : ℕ := 5

def baseDelay : ℕ := 5

/-- Result of the retry loop: the body obtained on success, or the
HTTPException(503) raised after the last failed attempt.  attemptsUsed
counts outbound calls issued; delays lists each time.sleep duration
executed between consecutive failed attempts. -/
inductive FetchOutcome where
  | ok (body : Json) (attemptsUsed : ℕ) (delays : List ℕ)
  | unavailable (attemptsUsed : ℕ) (delays : List ℕ)

/-- The loop body, indexed by the current 0-based attempt number i and the
number of attempts still allowed.  On a failure with further attempts left
the loop sleeps baseDelay and continues; on a failure at the last attempt
it raises; on success it breaks with the response body. -/
def retryFrom (oracle : ℕ → Attempt) (i : ℕ) : ℕ → FetchOutcome
  | 0 => .unavailable i []
  | r + 1 =>
    if attemptFails (oracle i) then
      if r = 0 then .unavailable (i + 1) []
      else
        match retryFrom oracle (i + 1) r with
        | .ok b n ds => .ok b n (baseDelay :: ds)
        | .unavailable n ds => .unavailable n (baseDelay :: ds)
    else .ok (oracle i).respBody (i + 1) []

/-- Lines 73-92: the whole retry loop, five attempts. -/
def fetchScores (oracle : ℕ → Attempt) : FetchOutcome :=
  retryFrom oracle 0 maxRetries

/-!  Normalization (lines 114-126) and HSL conversion (lines 128-133). -/

/-- The pickled per-dimension CDF interpolators, as rational-valued
functions. -/
structure CdfTable where
  v : ℚ → ℚ
  a : ℚ → ℚ
  d : ℚ → ℚ

/-- Lines 124-126: clip to the closed interval from 0 to 1. -/
def clamp01 (q : ℚ) : ℚ := min (max q 0) 1

/-- Python int() applied to a float: truncation toward zero. -/
def pyTrunc (q : ℚ) : ℤ := if 0 ≤ q then ⌊q⌋ else ⌈q⌉

/-- Lines 129-131: the HSL conversion arithmetic. -/
def toHSL (v a d : ℚ) : ℤ × ℤ × ℤ :=
  (pyTrunc (v * 240), pyTrunc (40 + a * 60), pyTrunc (30 + d * 40))

/-- The error taxonomy the endpoint surfaces, plus the success value. -/
inductive AnalyzeResult where
  | colorOk (hsl : ℤ × ℤ × ℤ)
  | configError
  | unavailable (attempts : ℕ)
  | malformedResponse (detail : Json)
  | uncaughtException
  | cdfMissing

/-- Line 67: if not HUGGING_FACE_API_KEY — true for an unset variable and
for the empty string, both falsy. -/
def keyMissing : Option String → Bool
  | none => true
  | some s => s.isEmpty

/-- Lines 118-133: apply the CDF interpolators to the three parsed Python
values, clip, and convert to HSL.  Calling an interpolator on Python None
or any non-numeric value raises, which escapes as an uncaught exception. -/
def transformStage (t : CdfTable) (vS aS dS : Option Json) : AnalyzeResult :=
  match vS, aS, dS with
  | some (.num qv), some (.num qa), some (.num qd) =>
    .colorOk (toHSL (clamp01 (t.v qv)) (clamp01 (t.a qa)) (clamp01 (t.d qd)))
  | _, _, _ => .uncaughtException

/-- The whole endpoint, lines 62-133: credential check, retry loop, parse,
CDF availability check, transform.  The second component counts outbound
calls issued. -/
def analyze (apiKey : Option String) (cdfs : Option CdfTable)
    (oracle : ℕ → Attempt) : AnalyzeResult × ℕ :=
  if keyMissing apiKey then (.configError, 0)
  else
    match fetchScores oracle with
    | .unavailable n _ => (.unavailable n, n)
    | .ok body n _ =>
      match parse body with
      | .malformed dtl => (.malformedResponse dtl, n)
      | .uncaught => (.uncaughtException, n)
      | .ok vS aS dS =>
        match cdfs with
        | none => (.cdfMissing, n)
        | some t => (transformStage t vS aS dS, n)

/-!  Spec-side helpers used to state the parsing claims. -/

/-- item.get("label") of a record. -/
def labelOf (item : Json) : Option Json :=
  match item with
  | .obj kvs => jget kvs "label"
  | _ => none

/-- item.get("score") of a record. -/
def scoreOf (item : Json) : Option Json :=
  match item with
  | .obj kvs => jget kvs "score"
  | _ => none

/-- Whether a record carries the given string label. -/
def labelIs (item : Json) (lbl : String) : Bool :=
  match labelOf item with
  | some (.str s) => s = lbl
  | _ => false

/-- The score of the last record in the list carrying the given label, if
any record does. -/
def lastScore (items : List Json) (lbl : String) : Option (Option Json) :=
  match items with
  | [] => none
  | item :: rest =>
    match lastScore rest lbl with
    | some r => some r
    | none => if labelIs item lbl then some (scoreOf item) else none

/-- The three VAD dimensions and their generic upstream labels. -/
inductive Dim where
  | V
  | A
  | D

def genericLabel : Dim → String
  | .V => "LABEL_0"
  | .A => "LABEL_1"
  | .D => "LABEL_2"

def ScoresDict.dim : ScoresDict → Dim → Option (Option Json)
  | sc, .V => sc.v
  | sc, .A => sc.a
  | sc, .D => sc.d

/-!  Helper lemmas. -/

lemma pyTrunc_cast (z : ℤ) : pyTrunc (z : ℚ) = z := by
  unfold pyTrunc
  split
  · exact Int.floor_intCast z
  · exact Int.ceil_intCast z

lemma attemptFails_of_error (st : ℕ) (b : Json) (h1 : 400 ≤ st) (h2 : st < 600) :
    attemptFails (.response st b) = true := by
  simp only [attemptFails, Bool.or_eq_true, Bool.and_eq_true, decide_eq_true_eq, beq_iff_eq]
  omega

lemma attemptFails_of_success (st : ℕ) (b : Json) (h : ¬(400 ≤ st ∧ st < 600)) :
    attemptFails (.response st b) = false := by
  simp only [attemptFails, Bool.or_eq_false_iff, Bool.and_eq_false_iff, decide_eq_false_iff_not,
    beq_eq_false_iff_ne, ne_eq]
  omega

/-- Unfolding the loop at a failed attempt that is not the last one. -/
lemma retryFrom_fail (o : ℕ → Attempt) (i r : ℕ) (hr : r ≠ 0)
    (h : attemptFails (o i) = true) :
    retryFrom o i (r + 1) =
      match retryFrom o (i + 1) r with
      | .ok b n ds => .ok b n (baseDelay :: ds)
      | .unavailable n ds => .unavailable n (baseDelay :: ds) := by
  simp [retryFrom, h, hr]

/-- Unfolding the loop at a failed final attempt. -/
lemma retryFrom_fail_last (o : ℕ → Attempt) (i : ℕ) (h : attemptFails (o i) = true) :
    retryFrom o i (0 + 1) = .unavailable (i + 1) [] := by
  simp [retryFrom, h]

/-- Unfolding the loop at a successful attempt. -/
lemma retryFrom_ok (o : ℕ → Attempt) (i r : ℕ) (h : attemptFails (o i) = false) :
    retryFrom o i (r + 1) = .ok (o i).respBody (i + 1) [] := by
  simp [retryFrom, h]

/-- The loop only ever inspects the oracle at the attempt indices it has
fuel for: two oracles agreeing there produce the same outcome. -/
lemma retryFrom_congr : ∀ (r : ℕ) (o o' : ℕ → Attempt) (i : ℕ),
    (∀ j, j < r → o (i + j) = o' (i + j)) →
    retryFrom o i r = retryFrom o' i r := by
  intro r
  induction r with
  | zero => intro o o' i _; rfl
  | succ r ih =>
    intro o o' i h
    have h0 : o i = o' i := by simpa using h 0 (Nat.succ_pos r)
    have hrest : ∀ j, j < r → o (i + 1 + j) = o' (i + 1 + j) := by
      intro j hj
      have hx := h (j + 1) (by omega)
      have harith : i + (j + 1) = i + 1 + j := by omega
      rw [harith] at hx
      exact hx
    simp only [retryFrom]
    rw [h0, ih o o' (i + 1) hrest]

/-- The dictionary built by the record loop holds, for each dimension, the
score of the last record carrying that dimension's generic label, falling
back to the initial dictionary entry when no record does. -/
lemma foldlM_dim : ∀ (items : List Json) (sc0 sc : ScoresDict) (dm : Dim),
    List.foldlM processItem sc0 items = Except.ok sc →
    sc.dim dm =
      (match lastScore items (genericLabel dm) with
       | some sv => some sv
       | none => sc0.dim dm) := by
  intro items
  induction items with
  | nil =>
    intro sc0 sc dm h
    simp only [List.foldlM, pure, Except.pure] at h
    cases h
    rfl
  | cons item rest ih =>
    intro sc0 sc dm h
    rw [List.foldlM_cons] at h
    cases hp : processItem sc0 item with
    | error e =>
      rw [hp] at h
      exact Except.noConfusion h
    | ok sc1 =>
      rw [hp] at h
      have h2 : List.foldlM processItem sc1 rest = Except.ok sc := h
      have hrec := ih sc1 sc dm h2
      rw [hrec]
      simp only [lastScore]
      cases hlast : lastScore rest (genericLabel dm) with
      | some r => rfl
      | none =>
        have hstep : sc1.dim dm =
            (if labelIs item (genericLabel dm) then some (scoreOf item) else sc0.dim dm) := by
          cases item with
          | obj kvs =>
            simp only [processItem] at hp
            simp only [labelIs, labelOf, scoreOf]
            cases hl : jget kvs "label" with
            | none =>
              rw [hl] at hp
              cases hp
              simp
            | some j =>
              rw [hl] at hp
              cases j with
              | str s =>
                by_cases hs0 : s = "LABEL_0"
                · subst hs0
                  simp only [if_pos rfl] at hp
                  cases hp
                  cases dm <;> simp [ScoresDict.dim, genericLabel]
                · by_cases hs1 : s = "LABEL_1"
                  · subst hs1
                    simp only [reduceIte] at hp
                    cases hp
                    cases dm <;> simp [ScoresDict.dim, genericLabel]
                  · by_cases hs2 : s = "LABEL_2"
                    · subst hs2
                      simp only [reduceIte] at hp
                      cases hp
                      cases dm <;> simp [ScoresDict.dim, genericLabel]
                    · simp only [if_neg hs0, if_neg hs1, if_neg hs2] at hp
                      cases hp
                      cases dm <;>
                        simp [ScoresDict.dim, genericLabel, hs0, hs1, hs2]
              | null => cases hp; simp
              | num q => cases hp; simp
              | list xs => simp at hp
              | obj kvs2 => simp at hp
          | null => simp [processItem] at hp
          | num q => simp [processItem] at hp
          | str s => simp [processItem] at hp
          | list xs => simp [processItem] at hp
        by_cases hli : labelIs item (genericLabel dm) = true
        · simp [hstep, hli]
        · simp [hstep, hli]

/-!  Claim theorems. -/

/-- Claim C4: for normalized v, a, d in the unit interval, toHSL returns the
integer floors of v*240, 40 + a*60 and 30 + d*40 (truncation toward zero
agreeing with floor on these nonnegative quantities), each within its
declared range, with the stated boundary values at all-zero and all-one
inputs. -/
theorem claim_C4_toHSL_ranges :
    (∀ v a d : ℚ, 0 ≤ v → v ≤ 1 → 0 ≤ a → a ≤ 1 → 0 ≤ d → d ≤ 1 →
      toHSL v a d = (⌊v * 240⌋, ⌊40 + a * 60⌋, ⌊30 + d * 40⌋) ∧
      0 ≤ ⌊v * 240⌋ ∧ ⌊v * 240⌋ ≤ 240 ∧
      40 ≤ ⌊40 + a * 60⌋ ∧ ⌊40 + a * 60⌋ ≤ 100 ∧
      30 ≤ ⌊30 + d * 40⌋ ∧ ⌊30 + d * 40⌋ ≤ 70) ∧
    toHSL 0 0 0 = (0, 40, 30) ∧ toHSL 1 1 1 = (240, 100, 70) := by
  refine ⟨?_, ?_, ?_⟩
  · intro v a d hv0 hv1 ha0 ha1 hd0 hd1
    have hv240 : (0:ℚ) ≤ v * 240 := by nlinarith
    have ha60 : (0:ℚ) ≤ 40 + a * 60 := by nlinarith
    have hd40 : (0:ℚ) ≤ 30 + d * 40 := by nlinarith
    refine ⟨?_, ?_, ?_, ?_, ?_, ?_, ?_⟩
    · simp only [toHSL, pyTrunc, if_pos hv240, if_pos ha60, if_pos hd40]
    · exact Int.le_floor.mpr (by push_cast; nlinarith)
    · have hle : ⌊v * 240⌋ ≤ ⌊((240:ℤ):ℚ)⌋ := Int.floor_le_floor (by push_cast; nlinarith)
      simpa using hle
    · exact Int.le_floor.mpr (by push_cast; nlinarith)
    · have hle : ⌊40 + a * 60⌋ ≤ ⌊((100:ℤ):ℚ)⌋ := Int.floor_le_floor (by push_cast; nlinarith)
      simpa using hle
    · exact Int.le_floor.mpr (by push_cast; nlinarith)
    · have hle : ⌊30 + d * 40⌋ ≤ ⌊((70:ℤ):ℚ)⌋ := Int.floor_le_floor (by push_cast; nlinarith)
      simpa using hle
  · have e1 : (0:ℚ) * 240 = ((0:ℤ):ℚ) := by norm_num
    have e2 : (40:ℚ) + 0 * 60 = ((40:ℤ):ℚ) := by norm_num
    have e3 : (30:ℚ) + 0 * 40 = ((30:ℤ):ℚ) := by norm_num
    simp only [toHSL, e1, e2, e3, pyTrunc_cast]
  · have e1 : (1:ℚ) * 240 = ((240:ℤ):ℚ) := by norm_num
    have e2 : (40:ℚ) + 1 * 60 = ((100:ℤ):ℚ) := by norm_num
    have e3 : (30:ℚ) + 1 * 40 = ((70:ℤ):ℚ) := by norm_num
    simp only [toHSL, e1, e2, e3, pyTrunc_cast]

/-- Witness for claim C4 at v = a = d = 1/2. -/
theorem claim_C4_toHSL_ranges_witness :
    toHSL (1/2) (1/2) (1/2) =
      (⌊(1/2 : ℚ) * 240⌋, ⌊40 + (1/2 : ℚ) * 60⌋, ⌊30 + (1/2 : ℚ) * 40⌋) ∧
    0 ≤ ⌊(1/2 : ℚ) * 240⌋ ∧ ⌊(1/2 : ℚ) * 240⌋ ≤ 240 ∧
    40 ≤ ⌊40 + (1/2 : ℚ) * 60⌋ ∧ ⌊40 + (1/2 : ℚ) * 60⌋ ≤ 100 ∧
    30 ≤ ⌊30 + (1/2 : ℚ) * 40⌋ ∧ ⌊30 + (1/2 : ℚ) * 40⌋ ≤ 70 :=
  claim_C4_toHSL_ranges.1 (1/2) (1/2) (1/2) (by norm_num) (by norm_num)
    (by norm_num) (by norm_num) (by norm_num) (by norm_num)

/-- Claim C9 asserts the hue is always strictly below 240; at valence 1 the
code produces exactly 240, refuting the strict bound. -/
theorem claim_C9_counterexample :
    (toHSL 1 0 0).1 = 240 ∧ ¬((toHSL 1 0 0).1 < 240) := by
  have e1 : (1:ℚ) * 240 = ((240:ℤ):ℚ) := by norm_num
  constructor
  · simp only [toHSL, e1, pyTrunc_cast]
  · simp only [toHSL, e1, pyTrunc_cast]
    omega

/-- Claim C9 amended: for valence in the unit interval the hue is at most
240, and it equals 240 exactly when valence equals 1 — so the hue range is
the closed interval up to 240, not the half-open one. -/
theorem claim_C9_amended_hue_le (v a d : ℚ) (hv0 : 0 ≤ v) (hv1 : v ≤ 1) :
    (toHSL v a d).1 ≤ 240 ∧ ((toHSL v a d).1 = 240 ↔ v = 1) := by
  have hv240 : (0:ℚ) ≤ v * 240 := by nlinarith
  have hueEq : (toHSL v a d).1 = ⌊v * 240⌋ := by
    simp only [toHSL, pyTrunc, if_pos hv240]
  rw [hueEq]
  constructor
  · have hle : ⌊v * 240⌋ ≤ ⌊((240:ℤ):ℚ)⌋ := Int.floor_le_floor (by push_cast; nlinarith)
    simpa using hle
  · constructor
    · intro hf
      have h1 : ((240:ℤ):ℚ) ≤ v * 240 := by
        rw [← hf]
        exact Int.floor_le _
      have h2 : (1:ℚ) ≤ v := by push_cast at h1; nlinarith
      exact le_antisymm hv1 h2
    · intro hv
      subst hv
      rw [show (1:ℚ) * 240 = ((240:ℤ):ℚ) by norm_num, Int.floor_intCast]

/-- Witness for the amended claim C9 at valence 1/2. -/
theorem claim_C9_amended_hue_le_witness :
    (toHSL (1/2) 0 0).1 ≤ 240 ∧ ((toHSL (1/2) 0 0).1 = 240 ↔ (1/2 : ℚ) = 1) :=
  claim_C9_amended_hue_le (1/2) 0 0 (by norm_num) (by norm_num)

/-- Claim C6: an absent or empty credential makes the endpoint fail with the
configuration error before the retry loop, with zero outbound calls, for
every CDF configuration and every upstream behavior. -/
theorem claim_C6_key_check_first (apiKey : Option String) (cdfs : Option CdfTable)
    (oracle : ℕ → Attempt) (h : keyMissing apiKey = true) :
    analyze apiKey cdfs oracle = (.configError, 0) := by
  simp [analyze, h]

/-- Witness for claim C6 with an unset credential. -/
theorem claim_C6_key_check_first_witness :
    analyze none none (fun _ => Attempt.response 200 Json.null) =
      (AnalyzeResult.configError, 0) :=
  claim_C6_key_check_first none none (fun _ => Attempt.response 200 Json.null) rfl

/-- Claim C2 asserts semantic V/A/D labels are accepted directly and yield
the same scores as the generic labels; in the code the semantic labels are
not in label_to_vad_map, so the record with label V and score 4 is
discarded and the two parses differ. -/
theorem claim_C2_counterexample :
    parse (Json.list [Json.obj [("label", Json.str "V"), ("score", Json.num 4)]]) ≠
      parse (Json.list [Json.obj [("label", Json.str "LABEL_0"), ("score", Json.num 4)]]) := by
  have hsem : parse (Json.list [Json.obj [("label", Json.str "V"), ("score", Json.num 4)]]) =
      .ok (some (.num 3)) (some (.num 3)) (some (.num 3)) := rfl
  have hgen : parse (Json.list [Json.obj [("label", Json.str "LABEL_0"), ("score", Json.num 4)]]) =
      .ok (some (.num 4)) (some (.num 3)) (some (.num 3)) := rfl
  rw [hsem, hgen]
  intro hEq
  injection hEq with hv _ _
  injection hv with hj
  injection hj with hq
  norm_num at hq

/-- Claim C2 amended: records labeled V/A/D are unrecognized and discarded,
so a fully semantic-labeled payload parses to the neutral defaults 3.0 in
every dimension, whereas the generic LABEL_0/1/2 payload with the same
numbers carries them through; the two forms are not equivalent. -/
theorem claim_C2_amended_semantic_discarded (qv qa qd : ℚ) :
    parse (Json.list [
        Json.obj [("label", Json.str "V"), ("score", Json.num qv)],
        Json.obj [("label", Json.str "A"), ("score", Json.num qa)],
        Json.obj [("label", Json.str "D"), ("score", Json.num qd)]]) =
      .ok (some (.num 3)) (some (.num 3)) (some (.num 3)) ∧
    parse (Json.list [
        Json.obj [("label", Json.str "LABEL_0"), ("score", Json.num qv)],
        Json.obj [("label", Json.str "LABEL_1"), ("score", Json.num qa)],
        Json.obj [("label", Json.str "LABEL_2"), ("score", Json.num qd)]]) =
      .ok (some (.num qv)) (some (.num qa)) (some (.num qd)) :=
  ⟨rfl, rfl⟩

/-- Claim C10: a record with a recognized generic label but no score field
stores Python None as the dimension's score — the neutral default 3.0 is
not substituted, since the dimension key is present in the dict — and that
None reaches the normalization stage, where calling the interpolator on it
raises an uncaught exception for every loaded CDF table. -/
theorem claim_C10_none_score_propagates :
    parse (Json.list [Json.obj [("label", Json.str "LABEL_0")]]) =
      .ok none (some (Json.num 3)) (some (Json.num 3)) ∧
    (none : Option Json) ≠ some (Json.num 3) ∧
    ∀ t : CdfTable,
      analyze (some "key") (some t)
        (fun _ => Attempt.response 200 (Json.list [Json.obj [("label", Json.str "LABEL_0")]])) =
        (.uncaughtException, 1) :=
  ⟨rfl, by simp, fun _ => rfl⟩

/-- Claim C5 asserts every unrecognized payload shape surfaces
MalformedResponse; but a sequence whose items are not records raises an
AttributeError that the except clause does not catch, so the payload
consisting of the single number 1 escapes without MalformedResponse. -/
theorem claim_C5_counterexample :
    parse (Json.list [Json.num 1]) = ParseOutcome.uncaught ∧
    ¬ ∃ dtl, parse (Json.list [Json.num 1]) = ParseOutcome.malformed dtl := by
  constructor
  · rfl
  · rintro ⟨dtl, hdtl⟩
    rw [show parse (Json.list [Json.num 1]) = ParseOutcome.uncaught from rfl] at hdtl
    exact ParseOutcome.noConfusion hdtl

/-- Claim C5 amended: subscripting the payload at index 0 fails exactly on
null, numbers, mappings, the empty sequence and the empty string, and every
such payload surfaces MalformedResponse carrying the offending payload as
diagnostic detail; nesting is detected via the first element, a nested
first element making the remaining top-level elements irrelevant; but a
sequence starting with a number raises an uncaught AttributeError instead
of MalformedResponse. -/
theorem claim_C5_amended_malformed :
    (∀ mo : Json, index0 mo = none ↔
      (mo = Json.null ∨ (∃ q, mo = Json.num q) ∨ (∃ kvs, mo = Json.obj kvs) ∨
       mo = Json.list [] ∨ (∃ s, mo = Json.str s ∧ s.data = []))) ∧
    (∀ mo : Json, index0 mo = none → parse mo = .malformed mo) ∧
    (∀ (e : Json) (rest : List Json), e.isList = true →
      outputListOf (Json.list (e :: rest)) = some e) ∧
    (∀ (q : ℚ) (rest : List Json), parse (Json.list (Json.num q :: rest)) = .uncaught) ∧
    (∀ (kvs : List (String × Json)) (rest : List Json),
      ((∃ xs, jget kvs "label" = some (Json.list xs)) ∨
       (∃ kvs2, jget kvs "label" = some (Json.obj kvs2))) →
      parse (Json.list (Json.obj kvs :: rest)) =
        .malformed (Json.list (Json.obj kvs :: rest))) := by
  refine ⟨?_, ?_, ?_, ?_, ?_⟩
  · intro mo
    cases mo with
    | null => exact ⟨fun _ => Or.inl rfl, fun _ => rfl⟩
    | num q => exact ⟨fun _ => Or.inr (Or.inl ⟨q, rfl⟩), fun _ => rfl⟩
    | obj kvs => exact ⟨fun _ => Or.inr (Or.inr (Or.inl ⟨kvs, rfl⟩)), fun _ => rfl⟩
    | list xs =>
      cases xs with
      | nil => exact ⟨fun _ => Or.inr (Or.inr (Or.inr (Or.inl rfl))), fun _ => rfl⟩
      | cons x xs2 =>
        constructor
        · intro h
          exact Option.noConfusion h
        · intro h
          rcases h with h | ⟨q, h⟩ | ⟨kvs, h⟩ | h | ⟨s, h, hs⟩ <;> simp at h
    | str s =>
      cases hs : s.data with
      | nil =>
        constructor
        · intro _
          exact Or.inr (Or.inr (Or.inr (Or.inr ⟨s, rfl, hs⟩)))
        · intro _
          simp [index0, hs]
      | cons c cs =>
        constructor
        · intro h
          simp [index0, hs] at h
        · intro h
          rcases h with h | ⟨q, h⟩ | ⟨kvs, h⟩ | h | ⟨s2, h, hs2⟩
          · simp at h
          · simp at h
          · simp at h
          · simp at h
          · injection h with he
            subst he
            rw [hs] at hs2
            simp at hs2
  · intro mo h
    simp [parse, outputListOf, h]
  · intro e rest he
    simp [outputListOf, index0, he]
  · intro q rest
    rfl
  · intro kvs rest hbad
    have hp : processItem ScoresDict.empty (Json.obj kvs) = .error .caught := by
      rcases hbad with ⟨xs, hl⟩ | ⟨kvs2, hl⟩ <;> simp [processItem, hl]
    have hf : foldItems (Json.obj kvs :: rest) = .error .caught := by
      rw [foldItems, List.foldlM_cons, hp]
      rfl
    have hout : outputListOf (Json.list (Json.obj kvs :: rest)) =
        some (Json.list (Json.obj kvs :: rest)) := rfl
    simp only [parse, hout, pyIterate, hf]

/-- Witness for the amended claim C5: a numeric payload surfaces
MalformedResponse with itself as detail, and a nested payload selects its
first element as the record list with the rest discarded. -/
theorem claim_C5_amended_malformed_witness :
    parse (Json.num 1) = ParseOutcome.malformed (Json.num 1) ∧
    outputListOf (Json.list [Json.list [], Json.num 7]) = some (Json.list []) ∧
    parse (Json.list [Json.obj [("label", Json.list [])]]) =
      ParseOutcome.malformed (Json.list [Json.obj [("label", Json.list [])]]) :=
  ⟨claim_C5_amended_malformed.2.1 (Json.num 1) rfl,
   claim_C5_amended_malformed.2.2.1 (Json.list []) [Json.num 7] rfl,
   claim_C5_amended_malformed.2.2.2.2 [("label", Json.list [])] []
     (Or.inl ⟨[], rfl⟩)⟩

/-- Claim C7: whenever the record loop completes without an exception, the
parse retains for each dimension exactly the score of the last record
carrying that dimension's generic label — a later occurrence overwrites an
earlier one — and a dimension no record mentions comes out as the neutral
default 3.0, with the parse succeeding. -/
theorem claim_C7_last_wins_default (mo : Json) (items : List Json) (sc : ScoresDict)
    (hout : outputListOf mo = some (Json.list items))
    (hfold : foldItems items = Except.ok sc) :
    parse mo = .ok
      ((lastScore items "LABEL_0").getD (some (Json.num 3)))
      ((lastScore items "LABEL_1").getD (some (Json.num 3)))
      ((lastScore items "LABEL_2").getD (some (Json.num 3))) := by
  have hv : sc.v = (match lastScore items "LABEL_0" with
      | some sv => some sv
      | none => (none : Option (Option Json))) :=
    foldlM_dim items ScoresDict.empty sc Dim.V hfold
  have ha : sc.a = (match lastScore items "LABEL_1" with
      | some sv => some sv
      | none => (none : Option (Option Json))) :=
    foldlM_dim items ScoresDict.empty sc Dim.A hfold
  have hd : sc.d = (match lastScore items "LABEL_2" with
      | some sv => some sv
      | none => (none : Option (Option Json))) :=
    foldlM_dim items ScoresDict.empty sc Dim.D hfold
  simp only [parse, hout, pyIterate, hfold]
  rw [hv, ha, hd]
  cases lastScore items "LABEL_0" <;> cases lastScore items "LABEL_1" <;>
    cases lastScore items "LABEL_2" <;> simp [dimOut]

/-- Witness for claim C7: two records both labeled LABEL_0 — the later
score 2 wins and the other dimensions default to 3.0. -/
theorem claim_C7_last_wins_default_witness :
    parse (Json.list [
        Json.obj [("label", Json.str "LABEL_0"), ("score", Json.num 1)],
        Json.obj [("label", Json.str "LABEL_0"), ("score", Json.num 2)]]) =
      ParseOutcome.ok (some (Json.num 2)) (some (Json.num 3)) (some (Json.num 3)) :=
  claim_C7_last_wins_default
    (Json.list [
        Json.obj [("label", Json.str "LABEL_0"), ("score", Json.num 1)],
        Json.obj [("label", Json.str "LABEL_0"), ("score", Json.num 2)]])
    [Json.obj [("label", Json.str "LABEL_0"), ("score", Json.num 1)],
     Json.obj [("label", Json.str "LABEL_0"), ("score", Json.num 2)]]
    ⟨some (some (Json.num 2)), none, none⟩ rfl rfl

/-- Claim C1 asserts a non-2xx, non-503 status fails immediately with no
retry; but raise_for_status raises an HTTPError, a RequestException
subclass, caught by the same handler as 503 — a constant 404 upstream is
retried through all five attempts. -/
theorem claim_C1_counterexample :
    fetchScores (fun _ => Attempt.response 404 Json.null) =
      FetchOutcome.unavailable 5 [5, 5, 5, 5] ∧ (5 : ℕ) ≠ 1 :=
  ⟨rfl, by norm_num⟩

/-- Claim C1 amended: every status in the 400-599 range — not only 503 —
lands in the retry handler, so a first attempt failing with such a status
is followed by a second attempt; a status outside 400-599 is treated as
success and its body is returned after a single attempt. -/
theorem claim_C1_amended_error_retried :
    (∀ (oracle : ℕ → Attempt) (st : ℕ) (b body : Json),
      400 ≤ st → st < 600 →
      oracle 0 = .response st b → oracle 1 = .response 200 body →
      fetchScores oracle = .ok body 2 [baseDelay]) ∧
    (∀ (oracle : ℕ → Attempt) (st : ℕ) (b : Json),
      ¬(400 ≤ st ∧ st < 600) → oracle 0 = .response st b →
      fetchScores oracle = .ok b 1 []) := by
  constructor
  · intro oracle st b body h4 h6 h0 h1
    have f0 : attemptFails (oracle 0) = true := by
      rw [h0]
      exact attemptFails_of_error st b h4 h6
    have f1 : attemptFails (oracle 1) = false := by rw [h1]; rfl
    have s1 : retryFrom oracle 1 4 = .ok (oracle 1).respBody 2 [] :=
      retryFrom_ok oracle 1 3 f1
    have s0 : retryFrom oracle 0 5 =
        (match retryFrom oracle 1 4 with
         | .ok bb n ds => .ok bb n (baseDelay :: ds)
         | .unavailable n ds => .unavailable n (baseDelay :: ds)) :=
      retryFrom_fail oracle 0 4 (by norm_num) f0
    show retryFrom oracle 0 5 = _
    rw [s0, s1, h1]
    rfl
  · intro oracle st b hno h0
    have f0 : attemptFails (oracle 0) = false := by
      rw [h0]
      exact attemptFails_of_success st b hno
    have s0 : retryFrom oracle 0 5 = .ok (oracle 0).respBody 1 [] :=
      retryFrom_ok oracle 0 4 f0
    show retryFrom oracle 0 5 = _
    rw [s0, h0]
    rfl

/-- Witness for the amended claim C1: a 404 then a 200 gives the 200 body
after two attempts; a 201 gives its body after one attempt. -/
theorem claim_C1_amended_error_retried_witness :
    fetchScores (fun i => if i = 0 then Attempt.response 404 Json.null
                          else Attempt.response 200 (Json.list [])) =
      FetchOutcome.ok (Json.list []) 2 [baseDelay] ∧
    fetchScores (fun _ => Attempt.response 201 (Json.list [])) =
      FetchOutcome.ok (Json.list []) 1 [] :=
  ⟨claim_C1_amended_error_retried.1
      (fun i => if i = 0 then Attempt.response 404 Json.null
                else Attempt.response 200 (Json.list []))
      404 Json.null (Json.list []) (by norm_num) (by norm_num) rfl rfl,
   claim_C1_amended_error_retried.2
      (fun _ => Attempt.response 201 (Json.list []))
      201 (Json.list []) (by norm_num) rfl⟩

/-- Claim C3: four 503 responses followed by a 200 make the loop succeed
after exactly five attempts with the fixed delay 5 slept between each
consecutive pair of failed attempts; five 503 responses exhaust the loop,
surfacing the unavailable error after exactly five attempts with the same
four fixed delays; and the outcome never depends on what a sixth call
would return, since only the first five oracle entries are consulted. -/
theorem claim_C3_retry_schedule :
    (∀ (oracle : ℕ → Attempt) (bodies : ℕ → Json) (body : Json),
      (∀ i, i < 4 → oracle i = .response 503 (bodies i)) →
      oracle 4 = .response 200 body →
      fetchScores oracle = .ok body 5 [baseDelay, baseDelay, baseDelay, baseDelay]) ∧
    (∀ (oracle : ℕ → Attempt) (bodies : ℕ → Json),
      (∀ i, i < 5 → oracle i = .response 503 (bodies i)) →
      fetchScores oracle = .unavailable 5 [baseDelay, baseDelay, baseDelay, baseDelay]) ∧
    (∀ o o2 : ℕ → Attempt, (∀ i, i < 5 → o i = o2 i) →
      fetchScores o = fetchScores o2) := by
  have hcong : ∀ o o2 : ℕ → Attempt, (∀ i, i < 5 → o i = o2 i) →
      fetchScores o = fetchScores o2 := by
    intro o o2 h
    exact retryFrom_congr 5 o o2 0 (fun j hj => by simpa using h j hj)
  refine ⟨?_, ?_, hcong⟩
  · intro oracle bodies body h1 h2
    have he : fetchScores oracle =
        fetchScores (fun i => if i < 4 then Attempt.response 503 (bodies i)
                              else Attempt.response 200 body) := by
      refine hcong _ _ (fun i hi => ?_)
      by_cases hi4 : i < 4
      · rw [h1 i hi4]
        simp [hi4]
      · have h44 : i = 4 := by omega
        subst h44
        rw [h2]
        rfl
    rw [he]
    rfl
  · intro oracle bodies h1
    have he : fetchScores oracle =
        fetchScores (fun i => Attempt.response 503 (bodies i)) := by
      refine hcong _ _ (fun i hi => h1 i hi)
    rw [he]
    rfl

/-- Witness for claim C3 at concrete oracles. -/
theorem claim_C3_retry_schedule_witness :
    fetchScores (fun i => if i < 4 then Attempt.response 503 Json.null
                          else Attempt.response 200 (Json.list [])) =
      FetchOutcome.ok (Json.list []) 5 [baseDelay, baseDelay, baseDelay, baseDelay] ∧
    fetchScores (fun _ => Attempt.response 503 Json.null) =
      FetchOutcome.unavailable 5 [baseDelay, baseDelay, baseDelay, baseDelay] ∧
    fetchScores (fun i => if i < 5 then Attempt.response 503 Json.null
                          else Attempt.transportError) =
      fetchScores (fun _ => Attempt.response 503 Json.null) :=
  ⟨claim_C3_retry_schedule.1
      (fun i => if i < 4 then Attempt.response 503 Json.null
                else Attempt.response 200 (Json.list []))
      (fun _ => Json.null) (Json.list []) (fun i hi => by simp [hi]) rfl,
   claim_C3_retry_schedule.2.1
      (fun _ => Attempt.response 503 Json.null) (fun _ => Json.null)
      (fun _ _ => rfl),
   claim_C3_retry_schedule.2.2
      (fun i => if i < 5 then Attempt.response 503 Json.null
                else Attempt.transportError)
      (fun _ => Attempt.response 503 Json.null)
      (fun i hi => by simp [hi])⟩

/-- Claim C8: with no CDF table loaded, a request that reaches the
normalization stage fails with the CDF-not-loaded server-configuration
error, and no request whatsoever can produce a color — there is no silent
fallback to any other transform. -/
theorem claim_C8_cdf_fail_closed :
    (∀ (apiKey : Option String) (oracle : ℕ → Attempt) (body : Json) (n : ℕ)
        (ds : List ℕ) (vS aS dS : Option Json),
      keyMissing apiKey = false →
      fetchScores oracle = .ok body n ds →
      parse body = .ok vS aS dS →
      analyze apiKey none oracle = (.cdfMissing, n)) ∧
    (∀ (apiKey : Option String) (oracle : ℕ → Attempt) (hsl : ℤ × ℤ × ℤ) (n : ℕ),
      analyze apiKey none oracle ≠ (.colorOk hsl, n)) := by
  constructor
  · intro apiKey oracle body n ds vS aS dS hkey hfetch hparse
    simp [analyze, hkey, hfetch, hparse]
  · intro apiKey oracle hsl n h
    unfold analyze at h
    split at h
    · simp at h
    · split at h
      · simp at h
      · split at h
        · simp at h
        · simp at h
        · simp at h

/-- Witness for claim C8: a configured key, a single successful call with a
recognized record, and a missing CDF table end in the CDF error. -/
theorem claim_C8_cdf_fail_closed_witness :
    analyze (some "key") none
      (fun _ => Attempt.response 200
        (Json.list [Json.obj [("label", Json.str "LABEL_0"), ("score", Json.num 2)]])) =
      (AnalyzeResult.cdfMissing, 1) :=
  claim_C8_cdf_fail_closed.1 (some "key")
    (fun _ => Attempt.response 200
      (Json.list [Json.obj [("label", Json.str "LABEL_0"), ("score", Json.num 2)]]))
    (Json.list [Json.obj [("label", Json.str "LABEL_0"), ("score", Json.num 2)]])
    1 [] (some (Json.num 2)) (some (Json.num 3)) (some (Json.num 3)) rfl rfl rfl
